import Mathlib

/-!
Shallow embedding of the cool_compiler semantic core of this repository:
scope.py (runtime Scope), types.py (TypeEnvironment, inheritance registry,
union_type), ast.py (AST node type-checking and evaluation).

Conventions used throughout:
* Python dicts become association lists (String × _) with lookup and
  insert-or-replace.
* A Python exception becomes Except Unit _ (.error ()); where the source
  mutates state and then raises, the function returns the mutated state
  together with a Bool flag recording that it raised.
* The module-level registry _TYPE_TO_PARENTTYPE is passed explicitly as reg;
  the module-level _TYPE_TO_TE cache and the registry together form
  GlobalState for class-level checking.
* while-loops that follow parent edges take a Nat bound counting the number
  of parent-edge follows; exceeding the bound yields .error () or none
  (the source would keep walking, or loop forever on a cyclic registry).
* The StdType string constants of types.py are inlined as string literals.
-/

namespace Cool

/-- Runtime values produced by evaluation: the language's integers, text and
booleans (ast.py literals evaluate to Python int, str, bool). -/
inductive Value where
  | int (n : Int)
  | str (s : String)
  | bool (b : Bool)
deriving DecidableEq, Repr

/-- Python `==` restricted to the Value universe: numbers and booleans compare
by numeric value (False == 0, True == 1), text compares by content, and a
number or boolean is never equal to text. -/
def pyEq : Value → Value → Bool
  | .int m, .int n => m == n
  | .str a, .str b => a == b
  | .bool a, .bool b => a == b
  | .int m, .bool b => m == (if b then (1 : Int) else 0)
  | .bool b, .int m => (if b then (1 : Int) else 0) == m
  | _, _ => false

/-- Numeric view of a value: Python treats booleans as the integers 0 and 1
in arithmetic contexts; text has no numeric view. -/
def pyNum : Value → Option Int
  | .int n => some n
  | .bool b => some (if b then 1 else 0)
  | .str _ => none

/-- Python truthiness on the Value universe. -/
def truthy : Value → Bool
  | .int n => n != 0
  | .str s => s != ""
  | .bool b => b

/-- BINARY_OPERATIONS lambda for +: numeric addition, or text concatenation;
a number and a text operand together raise TypeError. -/
def pyAdd (a b : Value) : Except Unit Value :=
  match a, b with
  | .str x, .str y => .ok (.str (x ++ y))
  | _, _ =>
    match pyNum a, pyNum b with
    | some m, some n => .ok (.int (m + n))
    | _, _ => .error ()

/-- BINARY_OPERATIONS lambda for -: numeric only. -/
def pySub (a b : Value) : Except Unit Value :=
  match pyNum a, pyNum b with
  | some m, some n => .ok (.int (m - n))
  | _, _ => .error ()

/-- Python string repetition s * n (negative count yields the empty string). -/
def strRepeat (s : String) (n : Int) : String :=
  String.join (List.replicate n.toNat s)

/-- BINARY_OPERATIONS lambda for *: numeric product, or text repetition when
one operand is text and the other numeric; text times text raises. -/
def pyMul (a b : Value) : Except Unit Value :=
  match a, b with
  | .str x, _ =>
    match pyNum b with
    | some n => .ok (.str (strRepeat x n))
    | none => .error ()
  | _, .str y =>
    match pyNum a with
    | some m => .ok (.str (strRepeat y m))
    | none => .error ()
  | _, _ =>
    match pyNum a, pyNum b with
    | some m, some n => .ok (.int (m * n))
    | _, _ => .error ()

/-- BINARY_OPERATIONS lambda for /: Python // floor division on integers;
division by zero raises ZeroDivisionError. -/
def pyDiv (a b : Value) : Except Unit Value :=
  match pyNum a, pyNum b with
  | some _, some 0 => .error ()
  | some m, some n => .ok (.int (Int.fdiv m n))
  | _, _ => .error ()

/-- BINARY_OPERATIONS lambda for <: numeric comparison, or lexicographic
comparison on text; mixed number/text raises. -/
def pyLt (a b : Value) : Except Unit Value :=
  match a, b with
  | .str x, .str y => .ok (.bool (decide (x < y)))
  | _, _ =>
    match pyNum a, pyNum b with
    | some m, some n => .ok (.bool (decide (m < n)))
    | _, _ => .error ()

/-- BINARY_OPERATIONS lambda for <=. -/
def pyLe (a b : Value) : Except Unit Value :=
  match a, b with
  | .str x, .str y => .ok (.bool (decide (x < y) || x == y))
  | _, _ =>
    match pyNum a, pyNum b with
    | some m, some n => .ok (.bool (decide (m ≤ n)))
    | _, _ => .error ()

/-- Dispatch over the BINARY_OPERATIONS table of ast.py; an operator not in
the table raises (KeyError at node construction time in the source). -/
def applyBinOp : String → Value → Value → Except Unit Value
  | "+", a, b => pyAdd a b
  | "-", a, b => pySub a b
  | "*", a, b => pyMul a b
  | "/", a, b => pyDiv a b
  | "<", a, b => pyLt a b
  | "<=", a, b => pyLe a b
  | "=", a, b => .ok (.bool (pyEq a b))
  | _, _, _ => .error ()

/-- Insert-or-replace into an association list, preserving the position of an
existing key, as Python dict assignment does. -/
def mapInsert (k : String) (v : α) : List (String × α) → List (String × α)
  | [] => [(k, v)]
  | (k', v') :: rest =>
    if k' = k then (k, v) :: rest else (k', v') :: mapInsert k v rest

/-- scope.py Scope: a chain of runtime frames, each owning a name-to-value
map and an optional parent frame. The _functions table of the source is not
modelled: no operation the claims mention touches it. -/
inductive Scope where
  | mk (vars : List (String × Value)) (parent : Option Scope)

/-- Scope.get_var: look the name up in this frame, else delegate to the
parent, else raise. -/
def Scope.get_var : Scope → String → Except Unit Value
  | .mk vars parent, name =>
    match vars.lookup name with
    | some v => .ok v
    | none =>
      match parent with
      | some p => Scope.get_var p name
      | none => .error ()

/-- scope.py Scope.set_var, faithfully including its control flow: the raise
statement at the end of the method body is NOT guarded by an else, so it
executes on every path that reaches it. The returned Bool records whether the
call raised. When the name is bound in this frame the assignment happens
first and then the unconditional raise fires; when the name is bound further
up, the recursive call raises and the exception propagates; when the name is
bound nowhere the raise fires directly. All paths raise. -/
def Scope.set_var : Scope → String → Value → Scope × Bool
  | .mk vars parent, name, value =>
    if (vars.lookup name).isSome then
      (.mk (mapInsert name value vars) parent, true)
    else
      match parent with
      | some p =>
        let res := Scope.set_var p name value
        (.mk vars (some res.fst), true)
      | none => (.mk vars none, true)

/-- types.py TypeEnvironment: an identifying current-class tag, a map of
identifier static types, a map of method signatures, and an optional parent
scope. -/
inductive TypeEnvironment where
  | mk (type : String) (object_types : List (String × String))
      (method_types : List (String × (List String × String)))
      (parent : Option TypeEnvironment)

/-- The current-class tag of a type environment. -/
def TypeEnvironment.type : TypeEnvironment → String
  | .mk t _ _ _ => t

/-- The identifier map owned by this exact scope node. -/
def TypeEnvironment.object_types : TypeEnvironment → List (String × String)
  | .mk _ objs _ _ => objs

/-- The method map owned by this exact scope node. -/
def TypeEnvironment.method_types :
    TypeEnvironment → List (String × (List String × String))
  | .mk _ _ ms _ => ms

/-- The enclosing scope, if any. -/
def TypeEnvironment.parent : TypeEnvironment → Option TypeEnvironment
  | .mk _ _ _ p => p

/-- TypeEnvironment.get_object_type: resolve upward through parent scopes;
raise when the chain is exhausted. -/
def get_object_type : TypeEnvironment → String → Except Unit String
  | .mk _ objs _ parent, name =>
    match objs.lookup name with
    | some t => .ok t
    | none =>
      match parent with
      | some p => get_object_type p name
      | none => .error ()

/-- TypeEnvironment.set_object_type: write only into this exact scope node;
raise when the name already exists at this level. -/
def set_object_type : TypeEnvironment → String → String → Except Unit TypeEnvironment
  | .mk ty objs ms parent, name, t =>
    if (objs.lookup name).isSome then .error ()
    else .ok (.mk ty ((name, t) :: objs) ms parent)

/-- TypeEnvironment.get_method_type: resolve upward through parent scopes;
raise when the chain is exhausted. -/
def get_method_type : TypeEnvironment → String → Except Unit (List String × String)
  | .mk _ _ ms parent, name =>
    match ms.lookup name with
    | some sig => .ok sig
    | none =>
      match parent with
      | some p => get_method_type p name
      | none => .error ()

/-- TypeEnvironment.set_method_type: write only into this exact scope node;
raise when the name already exists at this level. -/
def set_method_type (te : TypeEnvironment) (name : String)
    (param_types : List String) (return_type : String) :
    Except Unit TypeEnvironment :=
  match te with
  | .mk ty objs ms parent =>
    if (ms.lookup name).isSome then .error ()
    else .ok (.mk ty objs ((name, (param_types, return_type)) :: ms) parent)

/-- TypeEnvironment.child: a fresh scope node with this node as parent and
the same current-class tag. -/
def TypeEnvironment.child (te : TypeEnvironment) : TypeEnvironment :=
  .mk (TypeEnvironment.type te) [] [] (some te)

/-- types.py normalize: the placeholder self-type resolves to the
environment's current class; every other type is returned unchanged. -/
def normalize (t : String) (te : TypeEnvironment) : String :=
  if t = "SELF_TYPE" then TypeEnvironment.type te else t

/-- types.py is_std_type. -/
def is_std_type (t : String) : Bool :=
  t = "Bool" || t = "Int" || t = "String" || t = "IO" || t = "Object"

/-- types.py is_inheritable. -/
def is_inheritable (t : String) : Bool :=
  t ≠ "SELF_TYPE" && t ≠ "Bool" && t ≠ "Int" && t ≠ "String"

/-- The while-loop of types.py inherits: walk the parent chain from t,
returning true on exact match with parent_type, false when the root is
reached. A parent lookup on a type with no registered edge raises (the
source indexes the registry dict, KeyError). fuel bounds the number of
parent-edge follows; exhausting it is reported as an error (the source would
keep walking, forever on a cyclic registry). -/
def inheritsLoop (reg : List (String × String)) (parent_type : String) :
    Nat → String → Except Unit Bool
  | fuel, t =>
    if t = "Object" then .ok false
    else if t = parent_type then .ok true
    else
      match reg.lookup t with
      | none => .error ()
      | some p =>
        match fuel with
        | 0 => .error ()
        | f + 1 => inheritsLoop reg parent_type f p

/-- types.py inherits: every type is a descendant of the root; otherwise
walk the chain. -/
def inherits (reg : List (String × String)) (fuel : Nat)
    (t parent_type : String) : Except Unit Bool :=
  if parent_type = "Object" then .ok true
  else inheritsLoop reg parent_type fuel t

/-- The family deque built inside types.py union_type for one type: the
root-to-type ancestor chain, the root itself excluded, built by repeatedly
following parent edges (dict .get, so a missing edge simply stops the walk)
and prepending. fuel bounds the number of parent-edge follows; none means
the bound was exhausted (the source would keep walking). -/
def familyOpt (reg : List (String × String)) : Nat → String → Option (List String)
  | fuel, t =>
    if t = "Object" then some []
    else
      match reg.lookup t with
      | none => some [t]
      | some p =>
        match fuel with
        | 0 => none
        | f + 1 =>
          match familyOpt reg f p with
          | none => none
          | some fam => some (fam ++ [t])

/-- types.py _repeated: an empty tuple is not repeated; otherwise all
remaining members must equal the first. -/
def _repeated : List String → Bool
  | [] => false
  | first :: rest => rest.all (fun t => t = first)

/-- Python zip(*families): the positional columns of a list of rows, cut at
the shortest row; zip of no rows is empty. -/
def zipCols (fams : List (List String)) : List (List String) :=
  match fams with
  | [] => []
  | f :: fs =>
    (List.range (fs.foldl (fun m g => min m g.length) f.length)).map
      (fun i => (f :: fs).map (fun g => g.getD i ""))

/-- The column loop of types.py union_type: remember the last position at
which all chains agree, stop at the first disagreement. -/
def leastLoop : List (List String) → Option String → Option String
  | [], least => least
  | col :: cols, least =>
    if _repeated col then leastLoop cols (some (col.headD "")) else least

/-- The family-building for-loop of types.py union_type: one family per
distinct type, in order; none as soon as one chain walk exceeds the bound
(the source would hang inside that walk). -/
def buildFamilies (reg : List (String × String)) (fuel : Nat) :
    List String → Option (List (List String))
  | [] => some []
  | t :: rest =>
    match familyOpt reg fuel t with
    | none => none
    | some fam =>
      match buildFamilies reg fuel rest with
      | none => none
      | some fams => some (fam :: fams)

/-- types.py union_type: the join (least common ancestor) of a list of type
names. One distinct member is returned directly; otherwise the root-to-type
chains are zipped positionally and the last all-equal position wins, with
the root type as fallback. The Python set of types is modelled as the
deduplicated list (iteration order over a set is unspecified in the source;
the result does not depend on it). fuel bounds each chain walk; none means
a walk exceeded the bound (the source would keep walking). -/
def union_type (reg : List (String × String)) (fuel : Nat)
    (types : List String) : Option String :=
  let type_set := types.dedup
  if type_set.length = 1 then some (type_set.headD "")
  else
    match buildFamilies reg fuel type_set with
    | none => none
    | some families => some ((leastLoop (zipCols families) none).getD "Object")

/-- The expression node kinds of ast.py. A let binding is
(name, declared type, optional initializer); a case arm is
(name, bound type, arm expression). -/
inductive Expr where
  | varMutation (name : String) (value : Expr)
  | functionCall (name : String) (args : List Expr)
  | conditional (condition then_expr else_expr : Expr)
  | loop (condition body : Expr)
  | block (expr_list : List Expr)
  | varsInit (var_init_list : List (String × String × Option Expr)) (body : Expr)
  | typeMatching (scrutinee : Expr) (cases : List (String × String × Expr))
  | objectInit (type : String)
  | voidCheck (expr : Expr)
  | negation (expr : Expr)
  | boolNegation (expr : Expr)
  | arithmeticOp (op : String) (left right : Expr)
  | comparisonOp (op : String) (left right : Expr)
  | grouping (expr : Expr)
  | ident (name : String)
  | boolLit (value : String)
  | strLit (value : String)
  | intLit (value : String)

mutual

/-- The check_type methods of ast.py's expression nodes, one equation per
node kind, with the environment threaded explicitly. Expression-level
check_type never mutates the environment it receives (only freshly created
child environments are written to), so it returns just the computed static
type or an error. The per-node _normalize passes are applied pointwise at
the single place each declared type is used, which yields the same types
(normalize is pure and idempotent, and the tag it reads never changes). -/
def check_type (reg : List (String × String)) (fuel : Nat) :
    Expr → TypeEnvironment → Except Unit String
  | .varMutation name value, te =>
    match get_object_type te name with
    | .error u => .error u
    | .ok var_type =>
      match check_type reg fuel value te with
      | .error u => .error u
      | .ok value_type =>
        match inherits reg fuel value_type var_type with
        | .error u => .error u
        | .ok true => .ok value_type
        | .ok false => .error ()
  | .functionCall _ _, _ => .error ()
  | .conditional condition then_expr else_expr, te =>
    match check_type reg fuel condition te with
    | .error u => .error u
    | .ok ct =>
      if ct ≠ "Bool" then .error ()
      else
        match check_type reg fuel then_expr te with
        | .error u => .error u
        | .ok tt =>
          match check_type reg fuel else_expr te with
          | .error u => .error u
          | .ok et =>
            match union_type reg fuel [tt, et] with
            | some u => .ok u
            | none => .error ()
  | .loop condition body, te =>
    match check_type reg fuel condition te with
    | .error u => .error u
    | .ok ct =>
      if ct ≠ "Bool" then .error ()
      else
        match check_type reg fuel body te with
        | .error u => .error u
        | .ok _ => .ok "Object"
  | .block expr_list, te =>
    match checkBlock reg fuel expr_list te none with
    | .error u => .error u
    | .ok none => .ok "Object"
    | .ok (some t) => .ok t
  | .varsInit var_init_list body, te =>
    match checkBinds reg fuel var_init_list te (TypeEnvironment.child te) with
    | .error u => .error u
    | .ok extended_te => check_type reg fuel body extended_te
  | .typeMatching _ cases, te =>
    match checkCases reg fuel cases te [] [] with
    | .error u => .error u
    | .ok expr_types =>
      match union_type reg fuel expr_types with
      | some u => .ok u
      | none => .error ()
  | .objectInit t, te => .ok (normalize t te)
  | .voidCheck _, _ => .ok "Bool"
  | .negation expr, te =>
    match check_type reg fuel expr te with
    | .error u => .error u
    | .ok t => if t = "Int" then .ok "Int" else .error ()
  | .boolNegation expr, te =>
    match check_type reg fuel expr te with
    | .error u => .error u
    | .ok t => if t = "Bool" then .ok "Bool" else .error ()
  | .arithmeticOp _ left right, te =>
    match check_type reg fuel left te with
    | .error u => .error u
    | .ok lt =>
      if lt ≠ "Int" then .error ()
      else
        match check_type reg fuel right te with
        | .error u => .error u
        | .ok rt => if rt ≠ "Int" then .error () else .ok "Int"
  | .comparisonOp op left right, te =>
    match check_type reg fuel left te with
    | .error u => .error u
    | .ok left_type =>
      match check_type reg fuel right te with
      | .error u => .error u
      | .ok right_type =>
        if op = "=" then
          if left_type = right_type then .ok "Bool" else .error ()
        else if left_type ≠ "Int" then .error ()
        else if right_type ≠ "Int" then .error ()
        else .ok "Bool"
  | .grouping expr, te => check_type reg fuel expr te
  | .ident name, te =>
    if name = "self" then .ok (TypeEnvironment.type te)
    else get_object_type te name
  | .boolLit _, _ => .ok "Bool"
  | .strLit _, _ => .ok "String"
  | .intLit _, _ => .ok "Int"

/-- The sub-expression loop of BlockExpressionAST.check_type: every
sub-expression is checked in order and the last type is kept. -/
def checkBlock (reg : List (String × String)) (fuel : Nat) :
    List Expr → TypeEnvironment → Option String → Except Unit (Option String)
  | [], _, last => .ok last
  | e :: rest, te, _ =>
    match check_type reg fuel e te with
    | .error u => .error u
    | .ok t => checkBlock reg fuel rest te (some t)

/-- The binding loop of VarsInitAST.check_type: each initializer is checked
against the OUTER environment te, then the binding is registered into the
single child environment ext that the body will be checked in. -/
def checkBinds (reg : List (String × String)) (fuel : Nat) :
    List (String × String × Option Expr) → TypeEnvironment → TypeEnvironment →
    Except Unit TypeEnvironment
  | [], _, ext => .ok ext
  | (name, ty, value) :: rest, te, ext =>
    match value with
    | some v =>
      match check_type reg fuel v te with
      | .error u => .error u
      | .ok value_type =>
        match inherits reg fuel value_type (normalize ty te) with
        | .error u => .error u
        | .ok false => .error ()
        | .ok true =>
          match set_object_type ext name (normalize ty te) with
          | .error u => .error u
          | .ok ext' => checkBinds reg fuel rest te ext'
    | none =>
      match set_object_type ext name (normalize ty te) with
      | .error u => .error u
      | .ok ext' => checkBinds reg fuel rest te ext'

/-- The case loop of TypeMatchingAST.check_type: each arm is checked in a
fresh child environment binding the case variable, the arm result types are
collected in order, and a bound type seen twice raises. -/
def checkCases (reg : List (String × String)) (fuel : Nat) :
    List (String × String × Expr) → TypeEnvironment → List String →
    List String → Except Unit (List String)
  | [], _, _, expr_types => .ok expr_types
  | (name, ty, e) :: rest, te, case_types, expr_types =>
    match set_object_type (TypeEnvironment.child te) name (normalize ty te) with
    | .error u => .error u
    | .ok clone =>
      match check_type reg fuel e clone with
      | .error u => .error u
      | .ok et =>
        if case_types.contains (normalize ty te) then .error ()
        else
          checkCases reg fuel rest te (case_types ++ [normalize ty te])
            (expr_types ++ [et])

end

/-- The execute methods of ast.py's expression nodes. A node kind whose
class defines no execute method raises (the abstract method of IAST); the
reserved receiver name raises as well, since the source's Scope defines no
self_value attribute. -/
def execute : Expr → Scope → Except Unit Value
  | .voidCheck expr, s =>
    match execute expr s with
    | .error u => .error u
    | .ok value =>
      .ok (.bool (pyEq value (.int 0) || pyEq value (.str "") ||
        pyEq value (.bool false)))
  | .negation expr, s =>
    match execute expr s with
    | .error u => .error u
    | .ok value =>
      match pyNum value with
      | some n => .ok (.int (-n - 1))
      | none => .error ()
  | .boolNegation expr, s =>
    match execute expr s with
    | .error u => .error u
    | .ok value => .ok (.bool (!truthy value))
  | .arithmeticOp op left right, s =>
    match execute left s with
    | .error u => .error u
    | .ok a =>
      match execute right s with
      | .error u => .error u
      | .ok b => applyBinOp op a b
  | .comparisonOp op left right, s =>
    match execute left s with
    | .error u => .error u
    | .ok a =>
      match execute right s with
      | .error u => .error u
      | .ok b => applyBinOp op a b
  | .grouping expr, s => execute expr s
  | .ident name, s =>
    if name = "self" then .error ()
    else Scope.get_var s name
  | .boolLit v, _ => .ok (.bool (v = "true"))
  | .strLit v, _ => .ok (.str v)
  | .intLit v, _ =>
    match v.toInt? with
    | some n => .ok (.int n)
    | none => .error ()
  | _, _ => .error ()

/-- The feature kinds of ast.py: an attribute (VarInitFeatureAST) or a
method declaration (FunctionDeclarationFeatureAST). -/
inductive Feature where
  | varInit (name type : String) (value : Option Expr)
  | funDecl (name : String) (params : List (String × String))
      (return_type : String) (body : Expr)

/-- The check_type methods of the feature nodes. A feature writes into the
environment it is given, so the (possibly already mutated) environment is
returned on every path, paired with the outcome: an attribute registers its
name first and only then checks its initializer against the same
environment; a method registers its signature and checks its body in the
same environment (the source does not add the parameters to it). -/
def Feature.check_type (reg : List (String × String)) (fuel : Nat) :
    Feature → TypeEnvironment → TypeEnvironment × Except Unit String
  | .varInit name ty value, te =>
    match set_object_type te name ty with
    | .error u => (te, .error u)
    | .ok te' =>
      match value with
      | none => (te', .ok ty)
      | some v =>
        match Cool.check_type reg fuel v te' with
        | .error u => (te', .error u)
        | .ok value_type =>
          match inherits reg fuel value_type ty with
          | .error u => (te', .error u)
          | .ok true => (te', .ok ty)
          | .ok false => (te', .error ())
  | .funDecl name params return_type body, te =>
    match set_method_type te name (params.map Prod.snd) return_type with
    | .error u => (te, .error u)
    | .ok te' =>
      match Cool.check_type reg fuel body te' with
      | .error u => (te', .error u)
      | .ok body_type =>
        match inherits reg fuel body_type return_type with
        | .error u => (te', .error u)
        | .ok true => (te', .ok return_type)
        | .ok false => (te', .error ())

/-- The feature loop of ClassDeclarationAST.check_type: features are checked
in order against the class's environment; the first failure stops the loop,
keeping the mutations made so far. -/
def checkFeatures (reg : List (String × String)) (fuel : Nat) :
    List Feature → TypeEnvironment → TypeEnvironment × Except Unit Unit
  | [], te => (te, .ok ())
  | f :: fs, te =>
    match Feature.check_type reg fuel f te with
    | (te', .ok _) => checkFeatures reg fuel fs te'
    | (te', .error u) => (te', .error u)

/-- ast.py ClassDeclarationAST: name, resolved parent name, features. -/
structure ClassDecl where
  type : String
  inherited_type : String
  features : List Feature

/-- The ClassDeclarationAST constructor: an absent parent name means the
root type. -/
def mkClassDecl (name : String) (parent_name : Option String)
    (features : List Feature) : ClassDecl :=
  { type := name, inherited_type := parent_name.getD "Object",
    features := features }

/-- The module-level mutable state of types.py: the inheritance registry
_TYPE_TO_PARENTTYPE and the per-class environment cache _TYPE_TO_TE. -/
structure GlobalState where
  parentMap : List (String × String)
  teCache : List (String × TypeEnvironment)

/-- types.py type_env_of: return the cached environment for the class, or
create, cache and return a fresh one. -/
def type_env_of (t : String) (g : GlobalState) : GlobalState × TypeEnvironment :=
  match g.teCache.lookup t with
  | some te => (g, te)
  | none =>
    let te : TypeEnvironment := .mk t [] [] none
    ({ g with teCache := (t, te) :: g.teCache }, te)

/-- ClassDeclarationAST.check_type: validate the parent is inheritable (a
failure here precedes any mutation), register the inheritance edge
(make_inherit), then check every feature; the updated registry and the
class environment after the feature loop are returned on every path. -/
def ClassDecl.check_type (fuel : Nat) (c : ClassDecl)
    (pm : List (String × String)) (te : TypeEnvironment) :
    List (String × String) × TypeEnvironment × Except Unit String :=
  if is_inheritable c.inherited_type = false then (pm, te, .error ())
  else
    let pm' := mapInsert c.type c.inherited_type pm
    match checkFeatures pm' fuel c.features te with
    | (te', .ok _) => (pm', te', .ok c.type)
    | (te', .error u) => (pm', te', .error u)

/-- ClassDeclarationAST.init_typecheck: reject the placeholder self-type and
the built-in names before touching any global state; otherwise obtain the
class's cached environment and run check_type, writing the resulting
environment back into the cache (the source mutates the cached object in
place). -/
def ClassDecl.init_typecheck (fuel : Nat) (c : ClassDecl) (g : GlobalState) :
    GlobalState × Except Unit String :=
  if c.type = "SELF_TYPE" then (g, .error ())
  else if is_std_type c.type then (g, .error ())
  else
    let gte := type_env_of c.type g
    let res := ClassDecl.check_type fuel c gte.fst.parentMap gte.snd
    ({ parentMap := res.fst, teCache := mapInsert c.type res.snd.fst gte.fst.teCache },
      res.snd.snd)

/-! Theorems. -/

theorem dedup_of_all_eq (T : String) :
    ∀ l : List String, l ≠ [] → (∀ t ∈ l, t = T) → l.dedup = [T] := by
  intro l
  induction l with
  | nil => intro h; exact absurd rfl h
  | cons x xs ih =>
    intro _ hall
    have hx : x = T := hall x (List.mem_cons_self x xs)
    cases xs with
    | nil => simp [hx]
    | cons y ys =>
      have hxs : (y :: ys).dedup = [T] := by
        refine ih (by simp) ?_
        intro t ht
        exact hall t (List.mem_cons_of_mem x ht)
      have hmem : x ∈ y :: ys := by
        have hy : y = T := hall y (by simp)
        rw [hx, ← hy]
        simp
      rw [List.dedup_cons_of_mem hmem, hxs]

theorem familyOpt_root (reg : List (String × String)) (fuel : Nat) :
    familyOpt reg fuel "Object" = some [] := by
  simp [familyOpt]

theorem familyOpt_noedge (reg : List (String × String)) (fuel : Nat)
    (t : String) (ht : t ≠ "Object") (hp : reg.lookup t = none) :
    familyOpt reg fuel t = some [t] := by
  simp [familyOpt, ht, hp]

theorem familyOpt_step (reg : List (String × String)) (fuel : Nat)
    (t p : String) (fam : List String) (ht : t ≠ "Object")
    (hp : reg.lookup t = some p) (hf : familyOpt reg fuel p = some fam) :
    familyOpt reg (fuel + 1) t = some (fam ++ [t]) := by
  rw [familyOpt]
  simp [ht, hp, hf]

theorem familyOpt_getLast (reg : List (String × String)) (fuel : Nat)
    (t : String) (l : List String) (h : familyOpt reg fuel t = some l) :
    (t = "Object" ∧ l = []) ∨ l.getLast? = some t := by
  by_cases ht : t = "Object"
  · subst ht
    rw [familyOpt_root] at h
    exact Or.inl ⟨rfl, (Option.some_inj.mp h).symm⟩
  · right
    cases hp : reg.lookup t with
    | none =>
      rw [familyOpt_noedge reg fuel t ht hp] at h
      rw [← Option.some_inj.mp h]
      rfl
    | some p =>
      cases fuel with
      | zero =>
        rw [familyOpt] at h
        simp [ht, hp] at h
      | succ f =>
        cases hf : familyOpt reg f p with
        | none =>
          rw [familyOpt] at h
          simp [ht, hp, hf] at h
        | some fam =>
          rw [familyOpt_step reg f t p fam ht hp hf] at h
          rw [← Option.some_inj.mp h]
          simp [List.getLast?_concat]

theorem zip_self (xs : List String) : xs.zip xs = xs.map (fun x => (x, x)) := by
  induction xs with
  | nil => rfl
  | cons x xs ih => simp [List.zip_cons_cons, ih]

theorem zipCols_pair (l1 l2 : List String) :
    zipCols [l1, l2] = (l1.zip l2).map (fun p => [p.1, p.2]) := by
  refine List.ext_getElem ?_ ?_
  · simp [zipCols, List.length_zip]
  · intro i h1 h2
    have hi1 : i < l1.length := by
      simp [List.length_zip] at h2; omega
    have hi2 : i < l2.length := by
      simp [List.length_zip] at h2; omega
    simp only [zipCols, List.foldl, List.getElem_map, List.getElem_range,
      List.map_cons, List.map_nil, List.getElem_zip]
    rw [List.getD_eq_getElem _ _ hi1, List.getD_eq_getElem _ _ hi2]

theorem leastLoop_pair_cols (a b : String) (hab : a ≠ b) :
    ∀ (xs : List String) (acc : Option String),
      leastLoop ((xs.map fun x => [x, x]) ++ [[a, b]]) acc = (xs.getLast?).or acc := by
  intro xs
  induction xs with
  | nil =>
    intro acc
    simp [leastLoop, _repeated, Ne.symm hab]
  | cons x xs ih =>
    intro acc
    simp only [List.map_cons, List.cons_append]
    have hrep : _repeated [x, x] = true := by simp [_repeated]
    simp only [leastLoop, hrep, if_true, List.headD]
    rw [ih (some x)]
    cases xs with
    | nil => simp
    | cons y ys =>
      rw [List.getLast?_cons_cons]
      cases hz : (y :: ys).getLast? with
      | none => simp at hz
      | some z => simp [Option.or]

theorem union_type_pair (reg : List (String × String)) (fuel : Nat)
    (A B : String) (famA famB : List String) (hAB : A ≠ B)
    (hA : familyOpt reg fuel A = some famA)
    (hB : familyOpt reg fuel B = some famB) :
    union_type reg fuel [A, B]
      = some ((leastLoop (zipCols [famA, famB]) none).getD "Object") := by
  have hded : ([A, B] : List String).dedup = [A, B] := by
    rw [List.dedup_cons_of_not_mem (by simp [hAB])]
    simp
  unfold union_type
  rw [hded]
  simp [buildFamilies, hA, hB]

/-- C2: two distinct non-root classes that share the same registered direct
parent P (whose own chain terminates within the bound) join to exactly P;
and two classes unrelated except through the root — their root-down
ancestor chains share no type at all — join to the root type Object. -/
theorem c2_union_type_join (reg : List (String × String)) (fuel : Nat)
    (A B : String) (hAB : A ≠ B) (hA : A ≠ "Object") (hB : B ≠ "Object") :
    (∀ P famP, reg.lookup A = some P → reg.lookup B = some P →
        familyOpt reg fuel P = some famP →
        union_type reg (fuel + 1) [A, B] = some P)
    ∧ (∀ famA famB, familyOpt reg fuel A = some famA →
        familyOpt reg fuel B = some famB →
        (∀ t ∈ famA, t ∉ famB) →
        union_type reg fuel [A, B] = some "Object") := by
  constructor
  · intro P famP hpa hpb hfam
    have hfa : familyOpt reg (fuel + 1) A = some (famP ++ [A]) :=
      familyOpt_step reg fuel A P famP hA hpa hfam
    have hfb : familyOpt reg (fuel + 1) B = some (famP ++ [B]) :=
      familyOpt_step reg fuel B P famP hB hpb hfam
    rw [union_type_pair reg (fuel + 1) A B _ _ hAB hfa hfb]
    rw [zipCols_pair, List.zip_append rfl, zip_self]
    simp only [List.map_append, List.map_map, List.zip_cons_cons,
      List.zip_nil_right, List.map_cons, List.map_nil]
    have hcomp : ((fun p : String × String => [p.1, p.2]) ∘ fun x => (x, x))
        = fun x : String => [x, x] := rfl
    rw [hcomp, leastLoop_pair_cols A B hAB famP none]
    rcases familyOpt_getLast reg fuel P famP hfam with ⟨hPO, hnil⟩ | hlast
    · subst hPO
      rw [hnil]
      rfl
    · rw [hlast]
      rfl
  · intro famA famB hfa hfb hdisj
    have hlastA : famA.getLast? = some A := by
      rcases familyOpt_getLast reg fuel A famA hfa with ⟨h1, _⟩ | h
      · exact absurd h1 hA
      · exact h
    have hlastB : famB.getLast? = some B := by
      rcases familyOpt_getLast reg fuel B famB hfb with ⟨h1, _⟩ | h
      · exact absurd h1 hB
      · exact h
    cases famA with
    | nil => simp at hlastA
    | cons a0 as =>
      cases famB with
      | nil => simp at hlastB
      | cons b0 bs =>
        have hne : a0 ≠ b0 := by
          intro he
          exact (hdisj a0 (by simp)) (by simp [he])
        rw [union_type_pair reg fuel A B _ _ hAB hfa hfb]
        rw [zipCols_pair]
        simp only [List.zip_cons_cons, List.map_cons]
        have hrep : _repeated [a0, b0] = false := by
          simp [_repeated, Ne.symm hne]
        simp [leastLoop, hrep]

theorem c2_witness :
    (("A" : String) ≠ "B" ∧ ("A" : String) ≠ "Object" ∧ ("B" : String) ≠ "Object") ∧
    union_type [("A", "P"), ("B", "P"), ("P", "Object")] 2 ["A", "B"] = some "P" ∧
    union_type [("A", "C"), ("C", "Object"), ("B", "D"), ("D", "Object")] 2
      ["A", "B"] = some "Object" :=
  ⟨⟨by decide, by decide, by decide⟩,
    (c2_union_type_join [("A", "P"), ("B", "P"), ("P", "Object")] 1 "A" "B"
      (by decide) (by decide) (by decide)).1 "P" ["P"] rfl rfl rfl,
    (c2_union_type_join [("A", "C"), ("C", "Object"), ("B", "D"), ("D", "Object")]
      2 "A" "B" (by decide) (by decide) (by decide)).2 ["C", "A"] ["D", "B"]
      rfl rfl (by decide)⟩

/-- C7: join of a non-empty list whose distinct members all equal T is
exactly T, for every registry and every chain-walk bound (in particular the
zero bound: no parent edge is followed and no failure can occur). -/
theorem c7_union_type_singleton (reg : List (String × String)) (fuel : Nat)
    (T : String) (types : List String)
    (hne : types ≠ []) (hall : ∀ t ∈ types, t = T) :
    union_type reg fuel types = some T := by
  unfold union_type
  rw [dedup_of_all_eq T types hne hall]
  simp

theorem c7_witness :
    (["T", "T"] ≠ [] ∧ ∀ t ∈ ["T", "T"], t = "T") ∧
      union_type [] 0 ["T", "T"] = some "T" := by
  refine ⟨⟨by simp, by simp⟩,
    c7_union_type_singleton [] 0 "T" ["T", "T"] (by simp) (by simp)⟩

/-- C8: join never raises: whenever every (deduplicated) input type's chain
walk terminates within the bound, union_type returns a type name; the empty
list joins to the root type, and chains that already disagree at their
first position join to the root type. -/
theorem c8_union_type_total (reg : List (String × String)) (fuel : Nat)
    (types : List String)
    (h : (buildFamilies reg fuel types.dedup).isSome = true) :
    (union_type reg fuel types).isSome = true
    ∧ union_type reg fuel [] = some "Object"
    ∧ (∀ fams, buildFamilies reg fuel types.dedup = some fams →
        types.dedup.length ≠ 1 →
        _repeated ((zipCols fams).headD []) = false →
        union_type reg fuel types = some "Object") := by
  refine ⟨?_, rfl, ?_⟩
  · unfold union_type
    by_cases hl : types.dedup.length = 1
    · simp [hl]
    · obtain ⟨fams, hf⟩ := Option.isSome_iff_exists.mp h
      simp [hl, hf]
  · intro fams hf hlen hcol
    unfold union_type
    simp only [hlen, if_false, hf]
    cases hz : zipCols fams with
    | nil => simp [leastLoop]
    | cons col cols =>
      rw [hz] at hcol
      simp only [List.headD] at hcol
      simp [leastLoop, hcol]

theorem c8_witness :
    ((buildFamilies [] 0 (["A", "B"].dedup)).isSome = true) ∧
    (union_type [] 0 ["A", "B"]).isSome = true ∧
    union_type [] 0 [] = some "Object" :=
  ⟨rfl, (c8_union_type_total [] 0 ["A", "B"] rfl).1,
    (c8_union_type_total [] 0 ["A", "B"] rfl).2.1⟩

/-- C1 (code bug witness): the source's Scope.set_var stores the new value
into the frame where the name is bound but then hits the unconditional
raise at the end of the method, so the assignment raises instead of
returning the stored value; VarMutationAST defines no execute method at
all, so evaluating an assignment node raises NotImplementedError. -/
theorem c1_assignment_always_raises :
    Scope.set_var (.mk [("x", .int 1)] none) "x" (.int 2)
      = (.mk [("x", .int 2)] none, true)
    ∧ execute (.varMutation "x" (.intLit "2")) (.mk [("x", .int 1)] none)
      = .error () :=
  ⟨rfl, rfl⟩

/-- C3: let initializers are checked against the outer environment only:
a second binding whose initializer names the first binding (unbound
outside) fails, while all bindings of the group are visible in the body. -/
theorem c3_let_initializers_outer_scope (reg : List (String × String))
    (fuel : Nat) (te : TypeEnvironment)
    (hx : get_object_type te "x" = .error ()) :
    check_type reg fuel
      (.varsInit [("x", "Int", some (.intLit "5")), ("y", "Int", some (.ident "x"))]
        (.ident "y")) te
      = .error ()
    ∧ check_type reg fuel
      (.varsInit [("x", "Int", some (.intLit "5")), ("y", "Int", some (.intLit "6"))]
        (.comparisonOp "=" (.ident "x") (.ident "y"))) te
      = .ok "Bool" := by
  constructor
  · simp [check_type, checkBinds, normalize, inherits, inheritsLoop,
      set_object_type, TypeEnvironment.child, hx]
  · simp [check_type, checkBinds, normalize, inherits, inheritsLoop,
      set_object_type, TypeEnvironment.child, get_object_type]

theorem c3_witness :
    get_object_type (.mk "Main" [] [] none) "x" = .error () ∧
    check_type [] 0
      (.varsInit [("x", "Int", some (.intLit "5")), ("y", "Int", some (.ident "x"))]
        (.ident "y")) (.mk "Main" [] [] none) = .error () ∧
    check_type [] 0
      (.varsInit [("x", "Int", some (.intLit "5")), ("y", "Int", some (.intLit "6"))]
        (.comparisonOp "=" (.ident "x") (.ident "y"))) (.mk "Main" [] [] none)
      = .ok "Bool" :=
  ⟨rfl, (c3_let_initializers_outer_scope [] 0 (.mk "Main" [] [] none) rfl).1,
    (c3_let_initializers_outer_scope [] 0 (.mk "Main" [] [] none) rfl).2⟩

/-- C4: equality type-checks to Bool exactly when the operand static types
are identical; a pair of different operand types (subtype-compatible or
not) fails. -/
theorem c4_equality_requires_identical_types (reg : List (String × String))
    (fuel : Nat) (te : TypeEnvironment) (left right : Expr) (lt rt : String)
    (hl : check_type reg fuel left te = .ok lt)
    (hr : check_type reg fuel right te = .ok rt) :
    (check_type reg fuel (.comparisonOp "=" left right) te = .ok "Bool" ↔ lt = rt)
    ∧ (lt ≠ rt → check_type reg fuel (.comparisonOp "=" left right) te = .error ()) := by
  have hmain : check_type reg fuel (.comparisonOp "=" left right) te
      = if lt = rt then .ok "Bool" else .error () := by
    simp [check_type, hl, hr]
  by_cases h : lt = rt <;> simp [hmain, h]

theorem c4_witness :
    check_type [] 0 (.intLit "5") (.mk "Main" [] [] none) = .ok "Int" ∧
    check_type [] 0 (.strLit "5") (.mk "Main" [] [] none) = .ok "String" ∧
    (check_type [] 0 (.comparisonOp "=" (.intLit "5") (.strLit "5"))
        (.mk "Main" [] [] none) = .ok "Bool" ↔ ("Int" : String) = "String") ∧
    check_type [] 0 (.comparisonOp "=" (.intLit "5") (.strLit "5"))
      (.mk "Main" [] [] none) = .error () ∧
    check_type [] 0 (.comparisonOp "=" (.intLit "5") (.intLit "5"))
      (.mk "Main" [] [] none) = .ok "Bool" :=
  ⟨rfl, rfl,
    (c4_equality_requires_identical_types [] 0 (.mk "Main" [] [] none)
      (.intLit "5") (.strLit "5") "Int" "String" rfl rfl).1,
    (c4_equality_requires_identical_types [] 0 (.mk "Main" [] [] none)
      (.intLit "5") (.strLit "5") "Int" "String" rfl rfl).2 (by decide),
    (c4_equality_requires_identical_types [] 0 (.mk "Main" [] [] none)
      (.intLit "5") (.intLit "5") "Int" "Int" rfl rfl).1.mpr rfl⟩

/-- C5: registering an identifier fails exactly when the name already sits
in this scope node's own map; registering it in a fresh child scope
(shadowing an outer binding) always succeeds; hence two same-named
attributes on one class are rejected while the same attribute name on a
class whose own (fresh, per-class) environment does not hold it is
accepted. -/
theorem c5_duplicate_declaration (reg : List (String × String)) (fuel : Nat)
    (te : TypeEnvironment) (name ty sub : String) :
    ((set_object_type te name ty = .error ()) ↔
      ((TypeEnvironment.object_types te).lookup name).isSome = true)
    ∧ set_object_type (TypeEnvironment.child te) name ty
        = .ok (.mk (TypeEnvironment.type te) [(name, ty)] [] (some te))
    ∧ (checkFeatures reg fuel [.varInit name ty none, .varInit name ty none] te).snd
        = .error ()
    ∧ (checkFeatures reg fuel [.varInit name ty none] (.mk sub [] [] none)).snd
        = .ok () := by
  rcases te with ⟨t0, objs, ms, par⟩
  refine ⟨?_, ?_, ?_, ?_⟩
  · by_cases h : (objs.lookup name).isSome
    · simp [set_object_type, TypeEnvironment.object_types, h]
    · simp [set_object_type, TypeEnvironment.object_types, h]
  · simp [TypeEnvironment.child, TypeEnvironment.type, set_object_type]
  · by_cases h : (objs.lookup name).isSome
    · simp [checkFeatures, Feature.check_type, set_object_type, h]
    · simp [checkFeatures, Feature.check_type, set_object_type, h]
  · simp [checkFeatures, Feature.check_type, set_object_type]

/-- C6: void-check always types to Bool whatever its operand, and evaluates
to true exactly on the void-like sentinels — integer 0, empty text, boolean
false — and to false on every other operand value. -/
theorem c6_void_check (reg : List (String × String)) (fuel : Nat) (e : Expr)
    (te : TypeEnvironment) (s : Scope) (v : Value)
    (h : execute e s = .ok v) :
    check_type reg fuel (.voidCheck e) te = .ok "Bool"
    ∧ (execute (.voidCheck e) s = .ok (.bool true) ↔
        (v = .int 0 ∨ v = .str "" ∨ v = .bool false))
    ∧ (¬(v = .int 0 ∨ v = .str "" ∨ v = .bool false) →
        execute (.voidCheck e) s = .ok (.bool false)) := by
  have hex : execute (.voidCheck e) s
      = .ok (.bool (pyEq v (.int 0) || pyEq v (.str "") || pyEq v (.bool false))) := by
    simp [execute, h]
  refine ⟨by simp [check_type], ?_, ?_⟩
  · rw [hex]
    rcases v with n | s' | b
    · by_cases hn : n = 0 <;> simp [pyEq, hn]
    · by_cases hs : s' = "" <;> simp [pyEq, hs]
    · cases b <;> simp [pyEq]
  · intro hnv
    rw [hex]
    rcases v with n | s' | b
    · have hn : n ≠ 0 := fun h0 => hnv (Or.inl (by rw [h0]))
      simp [pyEq, hn]
    · have hs : s' ≠ "" := fun h0 => hnv (Or.inr (Or.inl (by rw [h0])))
      simp [pyEq, hs]
    · have hb : b = true := by
        cases b
        · exact absurd (Or.inr (Or.inr rfl)) hnv
        · rfl
      simp [pyEq, hb]

theorem c6_witness :
    execute (.boolLit "false") (.mk [] none) = .ok (.bool false) ∧
    check_type [] 0 (.voidCheck (.boolLit "false")) (.mk "Main" [] [] none)
      = .ok "Bool" ∧
    execute (.voidCheck (.boolLit "false")) (.mk [] none) = .ok (.bool true) :=
  ⟨rfl,
    (c6_void_check [] 0 (.boolLit "false") (.mk "Main" [] [] none) (.mk [] none)
      (.bool false) rfl).1,
    (c6_void_check [] 0 (.boolLit "false") (.mk "Main" [] [] none) (.mk [] none)
      (.bool false) rfl).2.1.mpr (Or.inr (Or.inr rfl))⟩

/-- C9: a loop whose condition types to Bool and whose body types to any
type at all has result type Object, independent of the body's type; a loop
whose condition types to anything other than Bool fails. -/
theorem c9_loop_type (reg : List (String × String)) (fuel : Nat)
    (te : TypeEnvironment) (condition body : Expr) (ct : String)
    (hc : check_type reg fuel condition te = .ok ct) :
    (∀ bt, ct = "Bool" → check_type reg fuel body te = .ok bt →
        check_type reg fuel (.loop condition body) te = .ok "Object")
    ∧ (ct ≠ "Bool" → check_type reg fuel (.loop condition body) te = .error ()) := by
  constructor
  · intro bt hb hbody
    subst hb
    simp [check_type, hc, hbody]
  · intro h
    simp [check_type, hc, h]

theorem c9_witness :
    check_type [] 0 (.comparisonOp "<" (.intLit "1") (.intLit "2"))
      (.mk "Main" [] [] none) = .ok "Bool" ∧
    check_type [] 0
      (.loop (.comparisonOp "<" (.intLit "1") (.intLit "2")) (.strLit "x"))
      (.mk "Main" [] [] none) = .ok "Object" :=
  ⟨rfl,
    (c9_loop_type [] 0 (.mk "Main" [] [] none)
      (.comparisonOp "<" (.intLit "1") (.intLit "2")) (.strLit "x") "Bool" rfl).1
      "String" rfl rfl⟩

/-- C10: initiating type-checking of a class whose own name is the
placeholder self-type or one of the built-in names raises before any
inheritance edge is registered and before any feature is checked: the
registry and the environment cache come back unchanged. -/
theorem c10_class_name_guard (fuel : Nat) (c : ClassDecl) (g : GlobalState)
    (h : c.type = "SELF_TYPE" ∨ is_std_type c.type = true) :
    ClassDecl.init_typecheck fuel c g = (g, .error ()) := by
  unfold ClassDecl.init_typecheck
  rcases h with h | h
  · simp [h]
  · by_cases hst : c.type = "SELF_TYPE"
    · simp [hst]
    · simp [hst, h]

theorem c10_witness :
    (ClassDecl.type ⟨"Bool", "Object", []⟩ = "SELF_TYPE" ∨
      is_std_type (ClassDecl.type ⟨"Bool", "Object", []⟩) = true) ∧
    ClassDecl.init_typecheck 3 ⟨"Bool", "Object", []⟩ ⟨[("A", "Object")], []⟩
      = (⟨[("A", "Object")], []⟩, .error ()) :=
  ⟨Or.inr rfl,
    c10_class_name_guard 3 ⟨"Bool", "Object", []⟩ ⟨[("A", "Object")], []⟩ (Or.inr rfl)⟩

end Cool
